import Mathlib

/-!
Verification of the kinematics model of the Celestial Mechanics Visualizer
(src/components/celestial-visualizer.tsx).

The simulation state and the derived orbital quantities are embedded
shallowly: float64 values are modelled as rationals (every finite float is a
rational), except where trigonometric functions or square roots force the
reals.  The JavaScript remainder operator `%` (sign of the dividend,
truncating quotient) is modelled by `jsMod`, and JavaScript `Date` day
arithmetic (`setDate`/`getDate`, proleptic Gregorian, taken at UTC) by
day-number conversion functions `daysFromCivil`/`civilFromDays`.
-/

namespace Celestial

/-- Constant `ORBIT_RX = 250` from the source. -/
def ORBIT_RX : ℝ := 250

/-- Constant `ORBIT_RY = 180` from the source. -/
def ORBIT_RY : ℝ := 180

/-- Constant `DAYS_IN_YEAR = 365.25` from the source. -/
def DAYS_IN_YEAR : ℚ := 365.25

/-- The four speed levels `[1, 7, 30.4, 365.25]` (days per second) from the source. -/
def speedLevels : List ℚ := [1, 7, 30.4, 365.25]

/-- Truncation toward zero of a rational, as JavaScript truncates the
quotient inside the `%` operator. -/
def qtrunc (x : ℚ) : ℤ := if 0 ≤ x then ⌊x⌋ else ⌈x⌉

/-- JavaScript remainder `x % y`: `x - y * trunc (x / y)`; the result carries
the sign of the dividend. -/
def jsMod (x y : ℚ) : ℚ := x - y * (qtrunc (x / y))

/-- `dayOfYear = simulationTime % DAYS_IN_YEAR` from the source. -/
def dayOfYear (simulationTime : ℚ) : ℚ := jsMod simulationTime DAYS_IN_YEAR

/-- Body of `getOrbitalStatus` after `Math.floor`: the chain of `if` branches
on the integer day, transcribed from the source. -/
def getOrbitalStatusD (day : ℤ) : String :=
  if (0 ≤ day ∧ day < 5) ∨ 360 ≤ day then "Vernal Equinox"
  else if 5 < day ∧ day < 86 then "Spring"
  else if 86 ≤ day ∧ day < 96 then "Summer Solstice"
  else if 96 < day ∧ day < 177 then "Summer"
  else if 177 ≤ day ∧ day < 187 then "Autumnal Equinox"
  else if 187 < day ∧ day < 268 then "Autumn"
  else if 268 ≤ day ∧ day < 278 then "Winter Solstice"
  else if 278 < day ∧ day < 360 then "Winter"
  else "In Orbit"

/-- `getOrbitalStatus(currentDay)` from the source: floor the day, then
branch. -/
def getOrbitalStatus (currentDay : ℚ) : String := getOrbitalStatusD ⌊currentDay⌋

/-- The simulation clock state: `simulationTime` (elapsed simulated days),
`lastTimeRef` (previous animation-frame timestamp in milliseconds, `none`
before the first frame), the pause flag, and the current speed multiplier
(days per real second). -/
structure ClockState where
  simulationTime : ℚ
  lastTimeRef : Option ℚ
  isPaused : Bool
  speed : ℚ
deriving DecidableEq, Repr

/-- One animation-frame callback `animate(time)` from the source: if
`lastTimeRef` is unset it is first set to `time` (so the delta is zero);
`deltaTime = (time - lastTimeRef) / 1000` seconds; when not paused,
`simulationTime += deltaTime * speed`; finally `lastTimeRef = time`. -/
def animate (st : ClockState) (time : ℚ) : ClockState :=
  let last := st.lastTimeRef.getD time
  let deltaTime := (time - last) / 1000
  { st with
    simulationTime :=
      if st.isPaused then st.simulationTime
      else st.simulationTime + deltaTime * st.speed
    lastTimeRef := some time }

/-- The initial clock state: `simulationTime = 0`, no reference timestamp,
not paused, speed level 1 (= 7 days per second). -/
def initialClock : ClockState :=
  { simulationTime := 0
    lastTimeRef := none
    isPaused := false
    speed := speedLevels.getD 1 0 }

/-- `earthRotationAngle` from the source:
`isRotationEnabled ? (simulationTime * 360) % 360 : 0`. -/
def earthRotationAngle (simulationTime : ℚ) (isRotationEnabled : Bool) : ℚ :=
  if isRotationEnabled then jsMod (simulationTime * 360) 360 else 0

/-- The formula of the spec for the rotation angle, written from its words:
`rotationAngle(elapsedDays, rotationEnabled) =
 rotationEnabled ? (elapsedDays × 360) mod 360 : 0`. -/
def specRotationAngle (elapsedDays : ℚ) (rotationEnabled : Bool) : ℚ :=
  if rotationEnabled then jsMod (elapsedDays * 360) 360 else 0

/-- The seasonal-phase table of the spec (§4.2), written from its words: first
match wins on `d = floor(dayOfYear)`. -/
def specSeasonalPhase (d : ℤ) : String :=
  if (0 ≤ d ∧ d < 5) ∨ 360 ≤ d then "Vernal Equinox"
  else if 5 < d ∧ d < 86 then "Spring"
  else if 86 ≤ d ∧ d < 96 then "Summer Solstice"
  else if 96 < d ∧ d < 177 then "Summer"
  else if 177 ≤ d ∧ d < 187 then "Autumnal Equinox"
  else if 187 < d ∧ d < 268 then "Autumn"
  else if 268 ≤ d ∧ d < 278 then "Winter Solstice"
  else if 278 < d ∧ d < 360 then "Winter"
  else "In Orbit"

/-- The nine seasonal labels the source can return. -/
def seasonLabels : List String :=
  ["Vernal Equinox", "Spring", "Summer Solstice", "Summer",
   "Autumnal Equinox", "Autumn", "Winter Solstice", "Winter", "In Orbit"]

/-- Day number (days since 1970-01-01) of a proleptic Gregorian civil date,
as JavaScript `Date` computes time values from year/month/day. -/
def daysFromCivil (y m d : ℤ) : ℤ :=
  let yy := if m ≤ 2 then y - 1 else y
  let era := Int.ediv (if 0 ≤ yy then yy else yy - 399) 400
  let yoe := yy - era * 400
  let mp := Int.emod (m + 9) 12
  let doy := Int.ediv (153 * mp + 2) 5 + d - 1
  let doe := yoe * 365 + Int.ediv yoe 4 - Int.ediv yoe 100 + doy
  era * 146097 + doe - 719468

/-- Civil date (year, month, day) of a day number, inverse of
`daysFromCivil`. -/
def civilFromDays (z0 : ℤ) : ℤ × ℤ × ℤ :=
  let z := z0 + 719468
  let era := Int.ediv (if 0 ≤ z then z else z - 146096) 146097
  let doe := z - era * 146097
  let yoe := Int.ediv (doe - Int.ediv doe 1460 + Int.ediv doe 36524 - Int.ediv doe 146096) 365
  let y := yoe + era * 400
  let doy := doe - (365 * yoe + Int.ediv yoe 4 - Int.ediv yoe 100)
  let mp := Int.ediv (5 * doy + 2) 153
  let d := doy - Int.ediv (153 * mp + 2) 5 + 1
  let m := mp + (if mp < 10 then 3 else -9)
  (if m ≤ 2 then y + 1 else y, m, d)

/-- `START_DATE` (the instant 2024-03-20T00:00:00Z) from the source, as a
civil date at UTC. -/
def START_DATE : ℤ × ℤ × ℤ := (2024, 3, 20)

/-- JavaScript `date.setDate(n)` on a date in year `y`, month `m`: the
day-of-month is set to `n` and the date renormalized (out-of-range `n` rolls
across month and year boundaries), which is day-number arithmetic from the
first of the month. -/
def jsSetDate (y m n : ℤ) : ℤ × ℤ × ℤ :=
  civilFromDays (daysFromCivil y m 1 + (n - 1))

/-- `currentDate` from the source (at UTC): copy `START_DATE`, then
`date.setDate(date.getDate() + Math.floor(simulationTime))` where
`getDate()` of the start date is 20 in year 2024, month 3. -/
def currentDate (simulationTime : ℚ) : ℤ × ℤ × ℤ :=
  jsSetDate 2024 3 (20 + ⌊simulationTime⌋)

/-- The formula of the spec, written from its words:
`calendarDate(elapsedDays) = START_DATE + floor(elapsedDays)` days. -/
def calendarDateSpec (elapsedDays : ℚ) : ℤ × ℤ × ℤ :=
  civilFromDays (daysFromCivil 2024 3 20 + ⌊elapsedDays⌋)

/-- `earthOrbitalAngle = (dayOfYear / DAYS_IN_YEAR) * 2 * Math.PI` from the
source. -/
noncomputable def earthOrbitalAngle (simulationTime : ℚ) : ℝ :=
  ((dayOfYear simulationTime : ℝ) / ((DAYS_IN_YEAR : ℚ) : ℝ)) * 2 * Real.pi

/-- `earthX = ORBIT_RX * Math.cos(earthOrbitalAngle)` from the source. -/
noncomputable def earthX (simulationTime : ℚ) : ℝ :=
  ORBIT_RX * Real.cos (earthOrbitalAngle simulationTime)

/-- `earthY = ORBIT_RY * Math.sin(earthOrbitalAngle)` from the source. -/
noncomputable def earthY (simulationTime : ℚ) : ℝ :=
  ORBIT_RY * Real.sin (earthOrbitalAngle simulationTime)

/-- `orbitalEccentricity = Math.sqrt(1 - Math.pow(ORBIT_RY / ORBIT_RX, 2))`
from the source. -/
noncomputable def orbitalEccentricity : ℝ :=
  Real.sqrt (1 - (ORBIT_RY / ORBIT_RX) ^ 2)

/-- C7: for every non-first, unpaused tick with previous timestamp `last`
and current timestamp `now` (milliseconds), the elapsed-days counter grows
by exactly `((now - last) / 1000) × speed`, i.e. real-time delta in seconds
times the speed multiplier. -/
theorem animate_unpaused_advance (st : ClockState) (last now : ℚ)
    (h : st.lastTimeRef = some last) (hp : st.isPaused = false) :
    (animate st now).simulationTime =
      st.simulationTime + ((now - last) / 1000) * st.speed := by
  simp [animate, h, hp]

/-- Witness for C7: with speed multiplier 7 and a 2000 ms (2 s) delta, the
clock advances from 0 by exactly 2 × 7 = 14 days. -/
theorem animate_unpaused_advance_witness :
    (animate ⟨0, some 1000, false, 7⟩ 3000).simulationTime =
      0 + ((3000 - 1000) / 1000) * 7 ∧
    (animate ⟨0, some 1000, false, 7⟩ 3000).simulationTime = 14 := by
  constructor
  · exact animate_unpaused_advance ⟨0, some 1000, false, 7⟩ 1000 3000 rfl rfl
  · rw [animate_unpaused_advance ⟨0, some 1000, false, 7⟩ 1000 3000 rfl rfl]
    norm_num

/-- C8: a tick taken while paused leaves `simulationTime`, the pause flag
and the speed untouched; only the reference timestamp is set to `now`. -/
theorem animate_paused_noop (st : ClockState) (now : ℚ)
    (hp : st.isPaused = true) :
    animate st now = { st with lastTimeRef := some now } := by
  simp [animate, hp]

/-- Witness for C8: a concrete paused tick updates only the timestamp. -/
theorem animate_paused_noop_witness :
    animate ⟨5, some 0, true, 7⟩ 9999 = ⟨5, some 9999, true, 7⟩ :=
  animate_paused_noop ⟨5, some 0, true, 7⟩ 9999 rfl

/-- Counterexample for C1: the code does not clamp a negative delta.  After
a first tick at 1000 ms, a second tick at 0 ms (timestamp strictly below the
recorded one) changes `simulationTime` from 0 to −7: the tick is not a no-op
and `simulationTime` becomes negative. -/
theorem tick_backwards_goes_negative :
    (animate initialClock 1000).simulationTime = 0 ∧
    (animate (animate initialClock 1000) 0).simulationTime = -7 ∧
    (animate (animate initialClock 1000) 0).simulationTime < 0 := by
  refine ⟨?_, ?_, ?_⟩ <;> norm_num [animate, initialClock, speedLevels]

/-- C1 (amended): a tick whose timestamp is ≤ the previous one applies the
zero-or-negative delta unclamped: the advance is always
`((now − last) / 1000) × speed`; with an equal timestamp `simulationTime`
is unchanged, and with a strictly smaller timestamp and positive speed it
strictly decreases (so it can become negative). -/
theorem tick_nonpositive_delta_applied (st : ClockState) (last now : ℚ)
    (h : st.lastTimeRef = some last) (hp : st.isPaused = false)
    (hle : now ≤ last) :
    (animate st now).simulationTime =
      st.simulationTime + ((now - last) / 1000) * st.speed ∧
    (now = last → (animate st now).simulationTime = st.simulationTime) ∧
    (now < last → 0 < st.speed →
      (animate st now).simulationTime < st.simulationTime) := by
  refine ⟨by simp [animate, h, hp], ?_, ?_⟩
  · intro he
    simp [animate, h, hp, he]
  · intro hlt hs
    have hneg : (now - last) / 1000 * st.speed < 0 := by
      apply mul_neg_of_neg_of_pos _ hs
      have : now - last < 0 := by linarith
      linarith
    simp only [animate, h, hp, Option.getD_some]
    simp only [Bool.false_eq_true, if_false]
    linarith

/-- Witness for C1 (amended): a tick with a timestamp equal to the previous
one leaves `simulationTime` at its value 3. -/
theorem tick_nonpositive_delta_applied_witness :
    (animate ⟨3, some 1000, false, 7⟩ 1000).simulationTime = 3 :=
  (tick_nonpositive_delta_applied ⟨3, some 1000, false, 7⟩ 1000 1000 rfl rfl
    (le_refl 1000)).2.1 rfl

/-- C9: the rotation angle of the code coincides with the formula of the
spec for every elapsed time and flag; with rotation enabled it is 180° at
half a day and 0° at one full day, and with rotation disabled it is 0 for
every elapsed time. -/
theorem rotation_angle_correct :
    (∀ (t : ℚ) (b : Bool), earthRotationAngle t b = specRotationAngle t b) ∧
    earthRotationAngle 0.5 true = 180 ∧
    earthRotationAngle 1 true = 0 ∧
    (∀ t : ℚ, earthRotationAngle t false = 0) := by
  refine ⟨fun t b => rfl, ?_, ?_, fun t => rfl⟩ <;>
    norm_num [earthRotationAngle, jsMod, qtrunc]

/-- For a nonnegative dividend and positive divisor, the JS remainder is
nonnegative and below the divisor. -/
theorem jsMod_nonneg_lt (x y : ℚ) (hx : 0 ≤ x) (hy : 0 < y) :
    0 ≤ jsMod x y ∧ jsMod x y < y := by
  have hq : qtrunc (x / y) = ⌊x / y⌋ := by
    unfold qtrunc
    rw [if_pos (div_nonneg hx (le_of_lt hy))]
  have h1 : ((⌊x / y⌋ : ℤ) : ℚ) ≤ x / y := Int.floor_le _
  have h2 : x / y < ((⌊x / y⌋ : ℤ) : ℚ) + 1 := Int.lt_floor_add_one _
  have h1m : ((⌊x / y⌋ : ℤ) : ℚ) * y ≤ x := (le_div_iff₀ hy).mp h1
  have h2m : x < (((⌊x / y⌋ : ℤ) : ℚ) + 1) * y := (div_lt_iff₀ hy).mp h2
  unfold jsMod
  rw [hq]
  constructor <;> nlinarith

/-- C5: for nonnegative elapsed time, `dayOfYear` is the JS remainder by
365.25 and lies in the half-open interval [0, 365.25). -/
theorem dayOfYear_mod_range (e : ℚ) (he : 0 ≤ e) :
    dayOfYear e = jsMod e DAYS_IN_YEAR ∧
    0 ≤ dayOfYear e ∧ dayOfYear e < 365.25 := by
  have h := jsMod_nonneg_lt e DAYS_IN_YEAR he (by norm_num [DAYS_IN_YEAR])
  exact ⟨rfl, h.1, h.2⟩

/-- Witness for C5: at elapsed time 0 the theorem applies and places
`dayOfYear 0` in the interval. -/
theorem dayOfYear_mod_range_witness :
    dayOfYear 0 = jsMod 0 DAYS_IN_YEAR ∧
    0 ≤ dayOfYear 0 ∧ dayOfYear 0 < 365.25 :=
  dayOfYear_mod_range 0 (le_refl 0)

/-- Finite check of the seasonal table: on every integer day 0..365 the code
branch chain agrees with the table of the spec, and falls through to the
fallback label exactly at days 5, 96, 187 and 278. -/
theorem seasonTable_check (d : ℤ) (h0 : 0 ≤ d) (h1 : d ≤ 365) :
    getOrbitalStatusD d = specSeasonalPhase d ∧
    (getOrbitalStatusD d = "In Orbit" ↔
      d = 5 ∨ d = 96 ∨ d = 187 ∨ d = 278) := by
  refine ⟨rfl, ?_⟩
  unfold getOrbitalStatusD
  split_ifs <;>
    constructor <;>
      intro hh <;>
        first
          | rfl
          | omega
          | (exfalso; omega)
          | exact absurd hh (by decide)

/-- C3: on the domain [0, 365.25) the seasonal phase computed by the code
equals the first-match table of the spec on `d = floor(dayOfYear)`, the
fallback label appears exactly at the uncovered boundary days 5, 96, 187
and 278, and the function is total there. -/
theorem seasonalPhase_matches_table (x : ℚ) (hx0 : 0 ≤ x)
    (hx1 : x < 365.25) :
    getOrbitalStatus x = specSeasonalPhase ⌊x⌋ ∧
    (getOrbitalStatus x = "In Orbit" ↔
      ⌊x⌋ = 5 ∨ ⌊x⌋ = 96 ∨ ⌊x⌋ = 187 ∨ ⌊x⌋ = 278) := by
  have hd0 : 0 ≤ ⌊x⌋ := Int.floor_nonneg.mpr hx0
  have hd1 : ⌊x⌋ ≤ 365 := by
    have h := Int.floor_le_floor (le_of_lt hx1)
    have h365 : ⌊(365.25 : ℚ)⌋ = 365 := by norm_num
    omega
  exact seasonTable_check ⌊x⌋ hd0 hd1

/-- Witness for C3: day 5 is an uncovered boundary, so the code and the
table both give the fallback label there. -/
theorem seasonalPhase_matches_table_witness :
    getOrbitalStatus 5 = "In Orbit" :=
  (seasonalPhase_matches_table 5 (by norm_num) (by norm_num)).2.mpr
    (Or.inl (by norm_num))

/-- C10: the seasonal-phase function of the code is total on every rational
input: it always returns one of the nine fixed labels, and on every input
with a negative floor it returns the fallback label. -/
theorem getOrbitalStatus_total (x : ℚ) :
    getOrbitalStatus x ∈ seasonLabels ∧
    (⌊x⌋ < 0 → getOrbitalStatus x = "In Orbit") := by
  constructor
  · unfold getOrbitalStatus getOrbitalStatusD seasonLabels
    split_ifs <;> decide
  · intro hneg
    unfold getOrbitalStatus getOrbitalStatusD
    split_ifs <;> first | rfl | omega

/-- Witness for C10: the input −2 has negative floor and maps to the
fallback label. -/
theorem getOrbitalStatus_total_witness :
    getOrbitalStatus (-2) = "In Orbit" :=
  (getOrbitalStatus_total (-2)).2 (by norm_num)

/-- C4: for every nonnegative elapsed time, the date computed by the code
through `setDate` day-of-month arithmetic equals `START_DATE` plus
`floor(elapsedDays)` whole days; at elapsed time 182 it is 2024-09-18 and
the seasonal phase is the autumnal equinox. -/
theorem currentDate_matches_spec (e : ℚ) (he : 0 ≤ e) :
    currentDate e = calendarDateSpec e ∧
    currentDate 182 = (2024, 9, 18) ∧
    getOrbitalStatus (dayOfYear 182) = "Autumnal Equinox" := by
  refine ⟨?_, ?_, ?_⟩
  · unfold currentDate calendarDateSpec jsSetDate
    have h19 : daysFromCivil 2024 3 20 = daysFromCivil 2024 3 1 + 19 := by
      decide
    rw [h19]
    congr 1
    omega
  · have hf : ⌊(182 : ℚ)⌋ = 182 := by norm_num
    unfold currentDate jsSetDate
    rw [hf]
    decide
  · have hd : dayOfYear 182 = 182 := by
      norm_num [dayOfYear, jsMod, qtrunc, DAYS_IN_YEAR]
    rw [hd]
    unfold getOrbitalStatus
    have hf : ⌊(182 : ℚ)⌋ = 182 := by norm_num
    rw [hf]
    decide

/-- Witness for C4: the theorem applied at elapsed time 182. -/
theorem currentDate_matches_spec_witness :
    currentDate 182 = calendarDateSpec 182 ∧
    currentDate 182 = (2024, 9, 18) :=
  ⟨(currentDate_matches_spec 182 (by norm_num)).1,
   (currentDate_matches_spec 182 (by norm_num)).2.1⟩

/-- C6: for every elapsed time the computed position lies exactly on the
axis-aligned ellipse with semi-axes `ORBIT_RX` and `ORBIT_RY`, so in
particular within the 1e-9 tolerance. -/
theorem position_on_ellipse (t : ℚ) :
    (earthX t / ORBIT_RX) ^ 2 + (earthY t / ORBIT_RY) ^ 2 = 1 ∧
    |(earthX t / ORBIT_RX) ^ 2 + (earthY t / ORBIT_RY) ^ 2 - 1| ≤
      1 / 1000000000 := by
  have hx : earthX t / ORBIT_RX = Real.cos (earthOrbitalAngle t) := by
    unfold earthX ORBIT_RX
    rw [mul_div_cancel_left₀ _ (by norm_num : (250:ℝ) ≠ 0)]
  have hy : earthY t / ORBIT_RY = Real.sin (earthOrbitalAngle t) := by
    unfold earthY ORBIT_RY
    rw [mul_div_cancel_left₀ _ (by norm_num : (180:ℝ) ≠ 0)]
  have h1 : (earthX t / ORBIT_RX) ^ 2 + (earthY t / ORBIT_RY) ^ 2 = 1 := by
    rw [hx, hy]
    exact Real.cos_sq_add_sin_sq _
  refine ⟨h1, ?_⟩
  rw [h1]
  norm_num

/-- The eccentricity constant lies strictly between 0.6939 and 0.6940. -/
theorem orbitalEccentricity_bounds :
    0.6939 < orbitalEccentricity ∧ orbitalEccentricity < 0.694 := by
  unfold orbitalEccentricity ORBIT_RY ORBIT_RX
  have hval : (1:ℝ) - (180 / 250) ^ 2 = 0.4816 := by norm_num
  rw [hval]
  constructor
  · rw [show (0.6939:ℝ) = Real.sqrt (0.6939 ^ 2) from
      (Real.sqrt_sq (by norm_num)).symm]
    exact Real.sqrt_lt_sqrt (by norm_num) (by norm_num)
  · rw [show (0.694:ℝ) = Real.sqrt (0.694 ^ 2) from
      (Real.sqrt_sq (by norm_num)).symm]
    exact Real.sqrt_lt_sqrt (by norm_num) (by norm_num)

/-- Counterexample for C2: the eccentricity constant of the code differs
from 0.7199 by more than 0.02, so it is not approximately 0.7199 (the
value 0.7199 is close to the axis ratio 180/250 = 0.72 instead). -/
theorem orbitalEccentricity_far_from_07199 :
    |orbitalEccentricity - 0.7199| > 0.02 := by
  have h := orbitalEccentricity_bounds
  rw [abs_of_neg (by linarith)]
  linarith

/-- C2 (amended): the eccentricity constant
`sqrt(1 − (ORBIT_RY/ORBIT_RX)²)` is approximately 0.6940 (within 0.001). -/
theorem orbitalEccentricity_approx_0694 :
    |orbitalEccentricity - 0.694| < 0.001 := by
  have h := orbitalEccentricity_bounds
  rw [abs_of_neg (by linarith)]
  linarith

end Celestial
